import Mathlib

/-!
Verification of the lavender decision engine
(`src/lavender_backend/src/services/decisionEngine.js`).

Sensor readings are JavaScript objects mapping sensor names to numbers; we
embed them as ordered association lists `List (String × ℚ)` (JS object keys
iterate in insertion order, and `Object.values` / `Object.keys` /
`Object.entries` all follow that order).  JS numbers are embedded as
rationals; no arithmetic in this engine can overflow or lose precision on
the values it manipulates.
-/

namespace DecisionEngine

/-- A sensor-readings map: `Object.{keys,values,entries}` iteration order is
the list order; `sensorData[k]` is `jsLookup`. -/
abbrev Readings := List (String × ℚ)

/-- JS property access `sensorData[k]`: the value bound to `k`, or
`none` for `undefined`. -/
def jsLookup : Readings → String → Option ℚ
  | [], _ => none
  | (k2, v) :: rest, k => if k2 == k then some v else jsLookup rest k

/-- One row of `this.sensorStandards`. -/
structure Standard where
  min : ℚ
  max : ℚ
  optimal : ℚ
  unit : String
  description : String
  deriving DecidableEq, Repr

/-- `this.sensorStandards`: the static standards table from the constructor.
The JS decimal literals `6.5`, `7.5`, `1.0`, `3.0`, `2.0` are written as the
equal rationals `mkRat 13 2`, `mkRat 15 2`, `1`, `3`, `2`. -/
def sensorStandards : String → Option Standard
  | "nitrogen" =>
      some { min := 40, max := 80, optimal := 60, unit := "ppm",
             description := "Leaf growth and color" }
  | "phosphorus" =>
      some { min := 20, max := 50, optimal := 35, unit := "ppm",
             description := "Root and flower development" }
  | "potassium" =>
      some { min := 30, max := 70, optimal := 50, unit := "ppm",
             description := "Disease resistance" }
  | "moisture" =>
      some { min := 20, max := 40, optimal := 30, unit := "%",
             description := "Soil water content" }
  | "temperature" =>
      some { min := 15, max := 30, optimal := 22, unit := "°C",
             description := "Ambient temperature" }
  | "ph" =>
      some { min := mkRat 13 2, max := mkRat 15 2, optimal := 7, unit := "pH",
             description := "Soil acidity" }
  | "ec" =>
      some { min := 1, max := 3, optimal := 2, unit := "mS/cm",
             description := "Nutrient concentration" }
  | _ => none

/-- The record returned by `calculateNPKFromECpH`. -/
structure NPK where
  nitrogen : ℚ
  phosphorus : ℚ
  potassium : ℚ
  deriving DecidableEq, Repr

/-- `calculateNPKFromECpH(ec, ph)`: heuristic NPK estimate, each component
clamped by `Math.min(100, Math.max(0, …))`.  The JS decimal literals `6.0`,
`7.0`, `6.5` are written as the equal rationals `6`, `7`, `mkRat 13 2`. -/
def calculateNPKFromECpH (ec ph : ℚ) : NPK :=
  { nitrogen := min 100 (max 0 (ec * 25 + (ph - 6) * 10)),
    phosphorus := min 100 (max 0 (ec * 15 + (7 - |7 - ph|) * 15)),
    potassium := min 100 (max 0 (ec * 20 + (ph - mkRat 13 2) * 12)) }

/-- One entry pushed by `checkSensorValidity` into its `issues` array. -/
structure SensorIssue where
  sensor : String
  value : ℚ
  unit : String
  min : ℚ
  max : ℚ
  severity : String
  deriving DecidableEq, Repr

/-- The issue list built by `checkSensorValidity`'s `forEach` over
`Object.entries(sensorData)`: entries with no standard are skipped, an entry
is an issue when `value < standard.min || value > standard.max`, and
`severity` is `"low"` when below the minimum, else `"high"`. -/
def validityIssues : Readings → List SensorIssue
  | [] => []
  | (k, v) :: rest =>
      match sensorStandards k with
      | some std =>
          if v < std.min ∨ std.max < v then
            { sensor := k, value := v, unit := std.unit, min := std.min,
              max := std.max,
              severity := if v < std.min then "low" else "high" }
              :: validityIssues rest
          else validityIssues rest
      | none => validityIssues rest

/-- The record returned by `checkSensorValidity`. -/
structure ValidityResult where
  hasIssues : Bool
  issues : List SensorIssue
  message : String
  deriving DecidableEq, Repr

/-- `checkSensorValidity(sensorData)`. -/
def checkSensorValidity (sensorData : Readings) : ValidityResult :=
  let issues := validityIssues sensorData
  { hasIssues := decide (0 < issues.length),
    issues := issues,
    message := if issues.length == 0 then "All sensors optimal"
               else toString issues.length ++ " sensor(s) need attention" }

/-- The record returned by `assessSensorCredibility`. -/
structure Assessment where
  status : String
  message : String
  confidence : String
  recommendation : String
  deriving DecidableEq, Repr

/-- The `allZero` test: `Object.values(sensorData).every(val => val === 0 ||
val === 0.0)` (the two JS literals denote the same number). -/
def allZeroB (sensorData : Readings) : Bool :=
  (sensorData.map (·.snd)).all (fun v => v == 0)

/-- The `allMax` test: for each value, `Object.keys(sensorData).find(k =>
sensorData[k] === val)` picks the first key bound to an equal value, its
standard is looked up, and the predicate is `standard && val === 100`
(falsy — hence `false` — when that key has no standards entry). -/
def allMaxB (sensorData : Readings) : Bool :=
  (sensorData.map (·.snd)).all (fun v =>
    match (sensorData.map (·.fst)).find? (fun k => jsLookup sensorData k == some v) with
    | some k =>
        match sensorStandards k with
        | some _ => v == 100
        | none => false
    | none => false)

/-- `assessSensorCredibility(sensorData)`: `allZero` is checked first, then
`allMax`, then the out-of-range issue count decides between
`needs_attention` and `credible`. -/
def assessSensorCredibility (sensorData : Readings) : Assessment :=
  if allZeroB sensorData then
    { status := "malfunctioning",
      message := "⚠️ SENSOR MALFUNCTION DETECTED: All sensors read 0",
      confidence := "low",
      recommendation := "Check sensor connections and power supply" }
  else if allMaxB sensorData then
    { status := "suspicious",
      message := "⚠️ SUSPICIOUS READINGS: All sensors at maximum values",
      confidence := "medium",
      recommendation := "Verify sensor calibration" }
  else
    let issues := checkSensorValidity sensorData
    { status := if issues.hasIssues then "needs_attention" else "credible",
      message := if issues.hasIssues then
          toString issues.issues.length ++ " sensor(s) out of optimal range"
        else "Sensor readings appear credible",
      confidence := "high",
      recommendation := if issues.hasIssues then "Adjust sensor values"
        else "Sensors working properly" }

/-- JS `x < t` where `x` may be `undefined`: `undefined < t` is `false`. -/
def ltOpt : Option ℚ → ℚ → Bool
  | some v, t => v < t
  | none, _ => false

/-- JS `x > t` where `x` may be `undefined`: `undefined > t` is `false`. -/
def gtOpt : Option ℚ → ℚ → Bool
  | some v, t => t < v
  | none, _ => false

/-- `const npkValues = calculatedNPK || sensorData`, then field access:
reads the NPK field when an estimate exists, else the raw reading. -/
def npkOrReading (calculatedNPK : Option NPK) (sensorData : Readings)
    (sel : NPK → ℚ) (key : String) : Option ℚ :=
  match calculatedNPK with
  | some n => some (sel n)
  | none => jsLookup sensorData key

/-- `detectNutrientDeficiencies(sensorData, calculatedNPK)`: fixed
nitrogen → phosphorus → potassium order with thresholds 40 / 20 / 30. -/
def detectNutrientDeficiencies (sensorData : Readings)
    (calculatedNPK : Option NPK) : List String :=
  (if ltOpt (npkOrReading calculatedNPK sensorData NPK.nitrogen "nitrogen") 40
   then ["Nitrogen (N)"] else []) ++
  (if ltOpt (npkOrReading calculatedNPK sensorData NPK.phosphorus "phosphorus") 20
   then ["Phosphorus (P)"] else []) ++
  (if ltOpt (npkOrReading calculatedNPK sensorData NPK.potassium "potassium") 30
   then ["Potassium (K)"] else [])

/-- `val in s.includes(sub)` needs a substring test; this is the character-list
test that `pat` occurs starting at the head. -/
def startsChars : List Char → List Char → Bool
  | [], _ => true
  | _ :: _, [] => false
  | a :: as, b :: bs => a == b && startsChars as bs

/-- `hasSubChars pat s`: some suffix of `s` starts with `pat`. -/
def hasSubChars (pat : List Char) : List Char → Bool
  | [] => pat.isEmpty
  | c :: cs => startsChars pat (c :: cs) || hasSubChars pat cs

/-- JS `s.includes(sub)`. -/
def sIncludes (s sub : String) : Bool :=
  hasSubChars sub.toList s.toList

/-- Rendering of `confidence * 100` used inside message strings.  The JS
source formats it with `toFixed(1)` (an IEEE-754 string-formatting detail);
the digits never influence control flow, so we render the exact rational. -/
def fmtPct (confidence : ℚ) : String :=
  toString (confidence * 100)

/-- The record returned by `generateIntelligentDiagnosis`. -/
structure Diagnosis where
  verdict : String
  confidence : String
  message : String
  reasoning : String
  requiresImmediateAction : Bool
  deriving DecidableEq, Repr

/-- The `Case 2` / `Case 3` / fallback portion of
`generateIntelligentDiagnosis` (everything after the `Case 1` block).  The
JS `Case 1` block falls through (no `return`) when the prediction is none
of the three known classes, so this portion is reachable both when `Case 1`
is not selected and when it is selected but matches no class. -/
def diagnosisCaseTwoOnward (aiPrediction : String) (aiConfidence : ℚ)
    (hasIssues : Bool) (sensorAssessment : Assessment) : Diagnosis :=
  if aiPrediction == "healthy" && hasIssues then
    if sensorAssessment.status == "malfunctioning" then
      { verdict := "SENSOR MALFUNCTION",
        confidence := "high",
        message := "✅ Plant appears healthy (" ++ fmtPct aiConfidence ++
          "% confidence) but sensors show malfunction.",
        reasoning := "Visual health indicators contradict sensor readings. Likely sensor hardware issue.",
        requiresImmediateAction := false }
    else
      { verdict := "EARLY WARNING",
        confidence := "medium",
        message := "⚠️ Plant looks healthy (" ++ fmtPct aiConfidence ++
          "% confidence) but sensors show developing issues.",
        reasoning := "Sensors detect suboptimal conditions that may not yet show visual symptoms.",
        requiresImmediateAction := true }
  else if aiPrediction != "healthy" && !hasIssues then
    { verdict := "VISUAL ISSUE DETECTED",
      confidence := "medium",
      message := "🔍 CNN detects issues (" ++ fmtPct aiConfidence ++
        "% confidence) but sensors report normal conditions.",
      reasoning := "Visual symptoms detected that may not be related to measured soil conditions.",
      requiresImmediateAction := true }
  else
    { verdict := "INCONCLUSIVE",
      confidence := "low",
      message := "Analysis results are inconclusive. Further investigation needed.",
      reasoning := "Conflicting signals between visual and sensor data.",
      requiresImmediateAction := false }

/-- `generateIntelligentDiagnosis(aiPrediction, aiConfidence, sensorData,
sensorAssessment, calculatedNPK)`: the `Case 1` agreement block first, with
`diagnosisCaseTwoOnward` as the shared continuation. -/
def generateIntelligentDiagnosis (aiPrediction : String) (aiConfidence : ℚ)
    (sensorData : Readings) (sensorAssessment : Assessment)
    (calculatedNPK : Option NPK) : Diagnosis :=
  let sensorIssues := checkSensorValidity sensorData
  if (aiPrediction == "healthy" && !sensorIssues.hasIssues) ||
     (aiPrediction != "healthy" && sensorIssues.hasIssues) then
    if aiPrediction == "healthy" then
      { verdict := "PLANT IS HEALTHY",
        confidence := "very_high",
        message := "✅ Visual appearance (" ++ fmtPct aiConfidence ++
          "% confidence) confirms healthy plant. Sensors show optimal conditions.",
        reasoning := "Both visual indicators and sensor data agree on plant health.",
        requiresImmediateAction := false }
    else if aiPrediction == "nutrient_deficient" then
      let deficiencies := detectNutrientDeficiencies sensorData calculatedNPK
      { verdict := "NUTRIENT DEFICIENCY CONFIRMED",
        confidence := "high",
        message := "⚠️ Visual symptoms (" ++ fmtPct aiConfidence ++
          "% confidence) match sensor-detected nutrient issues.",
        reasoning := "CNN detected deficiency patterns matching " ++
          (if 0 < deficiencies.length then String.intercalate ", " deficiencies
           else "multiple nutrient") ++ " imbalances.",
        requiresImmediateAction := true }
    else if aiPrediction == "diseased" then
      { verdict := "DISEASE DETECTED",
        confidence := "high",
        message := "🚨 Visual analysis (" ++ fmtPct aiConfidence ++
          "% confidence) indicates disease. Sensor conditions may be contributing.",
        reasoning := "Plant shows visual disease symptoms that require immediate attention.",
        requiresImmediateAction := true }
    else
      diagnosisCaseTwoOnward aiPrediction aiConfidence sensorIssues.hasIssues
        sensorAssessment
  else
    diagnosisCaseTwoOnward aiPrediction aiConfidence sensorIssues.hasIssues
      sensorAssessment

/-- The record returned by `determineEmergencyLevel`. -/
structure Emergency where
  level : String
  color : String
  icon : String
  message : String
  deriving DecidableEq, Repr

/-- The `level: high` literal of `determineEmergencyLevel`. -/
def highEmergency : Emergency :=
  { level := "high", color := "red", icon := "🚨",
    message := "IMMEDIATE ACTION REQUIRED" }

/-- The `level: medium` literal of `determineEmergencyLevel`. -/
def mediumEmergency : Emergency :=
  { level := "medium", color := "orange", icon := "⚠️",
    message := "ATTENTION NEEDED" }

/-- The `level: low` literal of `determineEmergencyLevel`. -/
def lowEmergency : Emergency :=
  { level := "low", color := "green", icon := "✅",
    message := "MONITOR REGULARLY" }

/-- `determineEmergencyLevel(diagnosis, sensorAssessment)`. -/
def determineEmergencyLevel (diagnosis : Diagnosis)
    (sensorAssessment : Assessment) : Emergency :=
  if sIncludes diagnosis.verdict "DISEASE" || diagnosis.requiresImmediateAction then
    highEmergency
  else if sensorAssessment.status == "malfunctioning" ||
      sIncludes diagnosis.verdict "WARNING" then
    mediumEmergency
  else
    lowEmergency

/-- `getNutrientAction(deficiency)`. -/
def getNutrientAction : String → String
  | "Nitrogen (N)" => "APPLY NITROGEN-RICH FERTILIZER (20-10-10)"
  | "Phosphorus (P)" => "ADD BONE MEAL OR ROCK PHOSPHATE"
  | "Potassium (K)" => "APPLY POTASH OR POTASSIUM SULFATE"
  | _ => "APPLY BALANCED FERTILIZER"

/-- One entry of the recommendations array. -/
structure Recommendation where
  action : String
  reason : String
  priority : Nat
  icon : String
  deriving DecidableEq, Repr

/-- The `ISOLATE PLANT` recommendation literal. -/
def isolatePlantRec : Recommendation :=
  { action := "ISOLATE PLANT", reason := "Prevent spread to other plants",
    priority := 1, icon := "🚨" }

/-- The `CHECK SENSOR CONNECTIONS` recommendation literal. -/
def checkSensorRec : Recommendation :=
  { action := "CHECK SENSOR CONNECTIONS",
    reason := "All sensors reading 0 - likely hardware issue",
    priority := 1, icon := "🔧" }

/-- The nutrient-deficiency recommendations: `deficiencies.forEach((def,
index) => push({…, priority: 2 + index}))`, with `detectNutrientDeficiencies`
called on the raw readings only (its `calculatedNPK` argument is omitted). -/
def nutrientRecs (sensorData : Readings) : List Recommendation :=
  (detectNutrientDeficiencies sensorData none).enum.map (fun p =>
    { action := getNutrientAction p.snd,
      reason := p.snd ++ " deficiency detected",
      priority := 2 + p.fst, icon := "🌱" })

/-- The moisture recommendations (`moisture < 20` / `moisture > 40`,
both `false` when the key is absent). -/
def moistureRecs (sensorData : Readings) : List Recommendation :=
  if ltOpt (jsLookup sensorData "moisture") 20 then
    [{ action := "WATER IMMEDIATELY",
       reason := "Soil moisture at " ++
         toString ((jsLookup sensorData "moisture").getD 0) ++
         "% (optimal: 20-40%)",
       priority := 2, icon := "💧" }]
  else if gtOpt (jsLookup sensorData "moisture") 40 then
    [{ action := "REDUCE WATERING",
       reason := "Soil moisture at " ++
         toString ((jsLookup sensorData "moisture").getD 0) ++
         "% (optimal: 20-40%)",
       priority := 2, icon := "⏱️" }]
  else []

/-- The pH recommendations (`ph < 6.5` / `ph > 7.5`, both `false` when the
key is absent; the thresholds are written as the equal rationals
`mkRat 13 2` and `mkRat 15 2`). -/
def phRecs (sensorData : Readings) : List Recommendation :=
  if ltOpt (jsLookup sensorData "ph") (mkRat 13 2) then
    [{ action := "ADD LIME TO RAISE pH",
       reason := "Soil pH at " ++ toString ((jsLookup sensorData "ph").getD 0) ++
         " (optimal: 6.5-7.5)",
       priority := 3, icon := "🧪" }]
  else if gtOpt (jsLookup sensorData "ph") (mkRat 15 2) then
    [{ action := "ADD SULFUR TO LOWER pH",
       reason := "Soil pH at " ++ toString ((jsLookup sensorData "ph").getD 0) ++
         " (optimal: 6.5-7.5)",
       priority := 3, icon := "🧪" }]
  else []

/-- Stable insertion step modelling the ECMAScript stable
`Array.prototype.sort` with comparator `(a, b) => a.priority - b.priority`:
an element moves past only strictly-smaller priorities, so equal priorities
keep their relative order. -/
def insertRec (r : Recommendation) : List Recommendation → List Recommendation
  | [] => [r]
  | x :: xs =>
      if x.priority < r.priority then x :: insertRec r xs
      else r :: x :: xs

/-- Stable sort of the recommendations by ascending `priority`
(`recommendations.sort((a, b) => a.priority - b.priority)`). -/
def sortRecs : List Recommendation → List Recommendation
  | [] => []
  | r :: rs => insertRec r (sortRecs rs)

/-- The recommendation list in push (insertion) order, before the final
sort: emergency action, then either the sensor-check early return or the
nutrient / moisture / pH actions. -/
def pushedRecommendations (sensorData : Readings)
    (sensorAssessment : Assessment) (emergencyLevel : Emergency) :
    List Recommendation :=
  (if emergencyLevel.level == "high" then [isolatePlantRec] else []) ++
  (if sensorAssessment.status == "malfunctioning" then [checkSensorRec]
   else nutrientRecs sensorData ++ moistureRecs sensorData ++ phRecs sensorData)

/-- `generateActionableRecommendations(diagnosis, sensorData,
sensorAssessment, emergencyLevel)`: the malfunction branch returns the
(unsorted) array early; every other path sorts by priority.  The
`diagnosis` parameter is accepted but never read, as in the source. -/
def generateActionableRecommendations (_diagnosis : Diagnosis)
    (sensorData : Readings) (sensorAssessment : Assessment)
    (emergencyLevel : Emergency) : List Recommendation :=
  if sensorAssessment.status == "malfunctioning" then
    (if emergencyLevel.level == "high" then [isolatePlantRec] else []) ++
      [checkSensorRec]
  else
    sortRecs
      ((if emergencyLevel.level == "high" then [isolatePlantRec] else []) ++
        (nutrientRecs sensorData ++ moistureRecs sensorData ++ phRecs sensorData))

/-- The vision-model result passed to the engine: `{prediction, confidence,
possible_issues}`; `possible_issues` may be absent (`none` = `undefined`;
the JS truthiness guard also lets an empty array through, which does
nothing, so both are covered). -/
structure VisionResult where
  prediction : String
  confidence : ℚ
  possible_issues : Option (List String)
  deriving DecidableEq, Repr

/-- JS `s.replace(pat, '')`: remove the first occurrence of `pat`. -/
def removeSubChars (pat : List Char) : List Char → List Char
  | [] => []
  | c :: cs =>
      if startsChars pat (c :: cs) then (c :: cs).drop pat.length
      else c :: removeSubChars pat cs

/-- One entry of the list built by `identifySpecificDeficiencies`.  The JS
objects carry different field sets for the visual and sensor variants;
fields absent on a variant are `none`. -/
structure Deficiency where
  dtype : String
  deficiency : String
  detectedBy : String
  confidence : Option ℚ := none
  level : Option ℚ := none
  unit : Option String := none
  severity : Option String := none
  deriving DecidableEq, Repr

/-- `identifySpecificDeficiencies(aiResult, sensorData, calculatedNPK)`:
visual entries (from `possible_issues`, `_deficiency` stripped and
upper-cased) first, then sensor entries in nitrogen → phosphorus →
potassium order using the NPK estimate when present, else raw readings. -/
def identifySpecificDeficiencies (aiResult : VisionResult)
    (sensorData : Readings) (calculatedNPK : Option NPK) : List Deficiency :=
  let visual : List Deficiency :=
    match aiResult.possible_issues with
    | some issues => issues.map (fun issue =>
        { dtype := "visual",
          deficiency :=
            ((removeSubChars "_deficiency".toList issue.toList).asString).toUpper,
          detectedBy := "CNN Model",
          confidence := some aiResult.confidence })
    | none => []
  let nv := npkOrReading calculatedNPK sensorData
  visual ++
  (if ltOpt (nv NPK.nitrogen "nitrogen") 40 then
     [{ dtype := "sensor", deficiency := "NITROGEN",
        level := nv NPK.nitrogen "nitrogen", unit := some "ppm",
        detectedBy := "Soil Sensor",
        severity := some (if ltOpt (nv NPK.nitrogen "nitrogen") 20
          then "severe" else "moderate") }]
   else []) ++
  (if ltOpt (nv NPK.phosphorus "phosphorus") 20 then
     [{ dtype := "sensor", deficiency := "PHOSPHORUS",
        level := nv NPK.phosphorus "phosphorus", unit := some "ppm",
        detectedBy := "Soil Sensor",
        severity := some (if ltOpt (nv NPK.phosphorus "phosphorus") 10
          then "severe" else "moderate") }]
   else []) ++
  (if ltOpt (nv NPK.potassium "potassium") 30 then
     [{ dtype := "sensor", deficiency := "POTASSIUM",
        level := nv NPK.potassium "potassium", unit := some "ppm",
        detectedBy := "Soil Sensor",
        severity := some (if ltOpt (nv NPK.potassium "potassium") 15
          then "severe" else "moderate") }]
   else [])

/-- The record returned by `generateNextSteps`. -/
structure NextSteps where
  title : String
  steps : List String
  buttonText : String
  deriving DecidableEq, Repr

/-- `generateNextSteps(emergencyLevel, requiresImmediateAction)`. -/
def generateNextSteps (emergencyLevel : Emergency)
    (requiresImmediateAction : Bool) : NextSteps :=
  if requiresImmediateAction then
    { title := "🔄 WHAT TO DO NEXT",
      steps := ["1. Review emergency actions below",
                "2. Implement highest priority recommendations first",
                "3. Take photos after treatment for comparison",
                "4. Re-analyze in 3-5 days"],
      buttonText := if emergencyLevel.level == "high"
        then "🚨 TAKE EMERGENCY ACTION" else "⚡ START RECOVERY PLAN" }
  else
    { title := "📝 RECOMMENDED NEXT STEPS",
      steps := ["1. Review recommendations below",
                "2. Adjust care routine as suggested",
                "3. Monitor plant daily",
                "4. Re-analyze weekly for improvements"],
      buttonText := "🌱 VIEW ACTION PLAN" }

/-- `getVisualAssessmentMessage(prediction, confidence)`. -/
def getVisualAssessmentMessage (prediction : String) (confidence : ℚ) : String :=
  match prediction with
  | "healthy" =>
      "The plant appears visually healthy with " ++ fmtPct confidence ++ "% confidence."
  | "nutrient_deficient" =>
      "Visual symptoms suggest nutrient deficiency with " ++ fmtPct confidence ++ "% confidence."
  | "diseased" =>
      "Disease symptoms detected with " ++ fmtPct confidence ++ "% confidence."
  | _ =>
      "Visual analysis completed with " ++ fmtPct confidence ++ "% confidence."

/-- The `visualAssessment` block of the final result. -/
structure VisualAssessment where
  prediction : String
  confidence : ℚ
  message : String
  deriving DecidableEq, Repr

/-- The `sensorAssessment` block of the final result: the spread of the
credibility assessment plus `readings`, `calculatedNPK` and `issues`. -/
structure SensorReport where
  status : String
  message : String
  confidence : String
  recommendation : String
  readings : Readings
  calculatedNPK : Option NPK
  issues : List SensorIssue
  deriving DecidableEq, Repr

/-- The full object returned by `analyzeSituation`. -/
structure AnalysisResult where
  emergencyLevel : Emergency
  visualAssessment : VisualAssessment
  sensorAssessment : SensorReport
  intelligentDiagnosis : Diagnosis
  deficiencies : List Deficiency
  recommendations : List Recommendation
  nextSteps : NextSteps
  deriving DecidableEq, Repr

/-- `analyzeSituation(aiResult, sensorData)`: the main pipeline.
`calculatedNPK` is computed only when both `sensorData.ec` and
`sensorData.ph` are present (`!== undefined`). -/
def analyzeSituation (aiResult : VisionResult) (sensorData : Readings) :
    AnalysisResult :=
  let aiPrediction := aiResult.prediction
  let aiConfidence := aiResult.confidence
  let sensorAssessment := assessSensorCredibility sensorData
  let sensorIssues := checkSensorValidity sensorData
  let calculatedNPK : Option NPK :=
    match jsLookup sensorData "ec", jsLookup sensorData "ph" with
    | some e, some p => some (calculateNPKFromECpH e p)
    | _, _ => none
  let diagnosis := generateIntelligentDiagnosis aiPrediction aiConfidence
    sensorData sensorAssessment calculatedNPK
  let emergencyLevel := determineEmergencyLevel diagnosis sensorAssessment
  let recommendations := generateActionableRecommendations diagnosis
    sensorData sensorAssessment emergencyLevel
  let deficiencies := identifySpecificDeficiencies aiResult sensorData calculatedNPK
  { emergencyLevel := emergencyLevel,
    visualAssessment :=
      { prediction := aiPrediction, confidence := aiConfidence,
        message := getVisualAssessmentMessage aiPrediction aiConfidence },
    sensorAssessment :=
      { status := sensorAssessment.status,
        message := sensorAssessment.message,
        confidence := sensorAssessment.confidence,
        recommendation := sensorAssessment.recommendation,
        readings := sensorData,
        calculatedNPK := calculatedNPK,
        issues := sensorIssues.issues },
    intelligentDiagnosis := diagnosis,
    deficiencies := deficiencies,
    recommendations := recommendations,
    nextSteps := generateNextSteps emergencyLevel diagnosis.requiresImmediateAction }

/-! ## Properties -/

/-- The clamp to `[0, 100]` named by the spec (`clamp` in §4.2). -/
def clampPct (x : ℚ) : ℚ := min 100 (max 0 x)

/-- C7: for all rational `ec` and `ph`, `calculateNPKFromECpH` returns
`nitrogen = clamp(ec·25 + (ph − 6.0)·10)`,
`phosphorus = clamp(ec·15 + (7.0 − |7.0 − ph|)·15)` and
`potassium = clamp(ec·20 + (ph − 6.5)·12)` with `clamp` bounding to
`[0, 100]`; hence every output component lies within `[0, 100]`. -/
theorem calculateNPKFromECpH_clamped (ec ph : ℚ) :
    (calculateNPKFromECpH ec ph).nitrogen = clampPct (ec * 25 + (ph - 6.0) * 10) ∧
    (calculateNPKFromECpH ec ph).phosphorus =
      clampPct (ec * 15 + (7.0 - |7.0 - ph|) * 15) ∧
    (calculateNPKFromECpH ec ph).potassium = clampPct (ec * 20 + (ph - 6.5) * 12) ∧
    0 ≤ (calculateNPKFromECpH ec ph).nitrogen ∧
    (calculateNPKFromECpH ec ph).nitrogen ≤ 100 ∧
    0 ≤ (calculateNPKFromECpH ec ph).phosphorus ∧
    (calculateNPKFromECpH ec ph).phosphorus ≤ 100 ∧
    0 ≤ (calculateNPKFromECpH ec ph).potassium ∧
    (calculateNPKFromECpH ec ph).potassium ≤ 100 := by
  have h60 : (6.0 : ℚ) = 6 := by norm_num
  have h70 : (7.0 : ℚ) = 7 := by norm_num
  have h65 : (6.5 : ℚ) = mkRat 13 2 := by norm_num
  refine ⟨?_, ?_, ?_, ?_, ?_, ?_, ?_, ?_, ?_⟩ <;>
    simp only [calculateNPKFromECpH, clampPct, h60, h70, h65] <;>
    first
      | rfl
      | exact le_min (by norm_num) (le_max_left 0 _)
      | exact min_le_left _ _

/-- C5: `determineEmergencyLevel` yields level `high` exactly when the
verdict contains `"DISEASE"` or `requiresImmediateAction` holds; otherwise
`medium` exactly when the assessment status is `malfunctioning` or the
verdict contains `"WARNING"`; otherwise `low`; and each level carries its
fixed color/icon/message triple. -/
theorem determineEmergencyLevel_levels (d : Diagnosis) (a : Assessment) :
    ((determineEmergencyLevel d a).level = "high" ↔
      (sIncludes d.verdict "DISEASE" = true ∨ d.requiresImmediateAction = true)) ∧
    ((determineEmergencyLevel d a).level = "medium" ↔
      (sIncludes d.verdict "DISEASE" = false ∧ d.requiresImmediateAction = false ∧
        (a.status = "malfunctioning" ∨ sIncludes d.verdict "WARNING" = true))) ∧
    ((determineEmergencyLevel d a).level = "low" ↔
      (sIncludes d.verdict "DISEASE" = false ∧ d.requiresImmediateAction = false ∧
        a.status ≠ "malfunctioning" ∧ sIncludes d.verdict "WARNING" = false)) ∧
    ((determineEmergencyLevel d a).level = "high" →
      determineEmergencyLevel d a = highEmergency) ∧
    ((determineEmergencyLevel d a).level = "medium" →
      determineEmergencyLevel d a = mediumEmergency) ∧
    ((determineEmergencyLevel d a).level = "low" →
      determineEmergencyLevel d a = lowEmergency) := by
  cases hD : sIncludes d.verdict "DISEASE" <;>
    cases hR : d.requiresImmediateAction <;>
      cases hW : sIncludes d.verdict "WARNING" <;>
        by_cases hS : a.status = "malfunctioning" <;>
          simp [determineEmergencyLevel, hD, hR, hW, hS, highEmergency,
            mediumEmergency, lowEmergency]

/-- The all-zero assessment record returned by `assessSensorCredibility`. -/
theorem assessSensorCredibility_allZero (m : Readings)
    (h : allZeroB m = true) :
    assessSensorCredibility m =
      { status := "malfunctioning",
        message := "⚠️ SENSOR MALFUNCTION DETECTED: All sensors read 0",
        confidence := "low",
        recommendation := "Check sensor connections and power supply" } := by
  unfold assessSensorCredibility
  rw [h]
  rfl

/-- C2: when every supplied reading equals exactly `0`, the assessment
status is `malfunctioning`, and the recommendation list is exactly the
`CHECK SENSOR CONNECTIONS` action at priority 1, preceded by the
`ISOLATE PLANT` action at priority 1 if and only if the emergency level is
`high`; no nutrient, moisture, or pH recommendation is appended. -/
theorem allZero_status_and_recommendations (m : Readings) (d : Diagnosis)
    (lvl : Emergency) (h : allZeroB m = true) :
    (assessSensorCredibility m).status = "malfunctioning" ∧
    checkSensorRec.action = "CHECK SENSOR CONNECTIONS" ∧
    checkSensorRec.priority = 1 ∧
    isolatePlantRec.action = "ISOLATE PLANT" ∧
    isolatePlantRec.priority = 1 ∧
    generateActionableRecommendations d m (assessSensorCredibility m) lvl =
      (if lvl.level = "high" then [isolatePlantRec, checkSensorRec]
       else [checkSensorRec]) := by
  have hs := assessSensorCredibility_allZero m h
  refine ⟨by rw [hs], rfl, rfl, rfl, rfl, ?_⟩
  rw [hs]
  unfold generateActionableRecommendations
  by_cases hl : lvl.level = "high" <;> simp [hl]

/-- Witness for C2 at readings `{nitrogen: 0}`, a concrete diagnosis, and a
`high` emergency level. -/
theorem allZero_status_and_recommendations_witness :
    allZeroB [("nitrogen", (0 : ℚ))] = true ∧
    (assessSensorCredibility [("nitrogen", (0 : ℚ))]).status = "malfunctioning" ∧
    generateActionableRecommendations
        { verdict := "DISEASE DETECTED", confidence := "high", message := "m",
          reasoning := "r", requiresImmediateAction := true }
        [("nitrogen", (0 : ℚ))]
        (assessSensorCredibility [("nitrogen", (0 : ℚ))]) highEmergency =
      [isolatePlantRec, checkSensorRec] := by
  have h := allZero_status_and_recommendations [("nitrogen", (0 : ℚ))]
    { verdict := "DISEASE DETECTED", confidence := "high", message := "m",
      reasoning := "r", requiresImmediateAction := true }
    highEmergency (by decide)
  refine ⟨by decide, h.1, ?_⟩
  rw [h.2.2.2.2.2]
  decide

/-- Membership in a stable insertion step. -/
theorem mem_insertRec {r x : Recommendation} {l : List Recommendation} :
    x ∈ insertRec r l ↔ x = r ∨ x ∈ l := by
  induction l with
  | nil => simp [insertRec]
  | cons a as ih =>
      by_cases h : a.priority < r.priority <;>
        simp [insertRec, h, ih, or_left_comm]

/-- Inserting into a priority-sorted list keeps it sorted. -/
theorem insertRec_pairwise {r : Recommendation} {l : List Recommendation}
    (h : List.Pairwise (fun x y : Recommendation => x.priority ≤ y.priority) l) :
    List.Pairwise (fun x y : Recommendation => x.priority ≤ y.priority)
      (insertRec r l) := by
  induction l with
  | nil => simp [insertRec]
  | cons a as ih =>
      rcases List.pairwise_cons.1 h with ⟨ha, has⟩
      by_cases hp : a.priority < r.priority
      · rw [insertRec, if_pos hp]
        refine List.pairwise_cons.2 ⟨?_, ih has⟩
        intro x hx
        rcases mem_insertRec.1 hx with rfl | hxm
        · exact le_of_lt hp
        · exact ha x hxm
      · rw [insertRec, if_neg hp]
        refine List.pairwise_cons.2 ⟨?_, h⟩
        intro x hx
        rcases List.mem_cons.1 hx with rfl | hxm
        · exact le_of_not_lt hp
        · exact le_trans (le_of_not_lt hp) (ha x hxm)

/-- The stable recommendation sort produces a priority-sorted list. -/
theorem sortRecs_pairwise (l : List Recommendation) :
    List.Pairwise (fun x y : Recommendation => x.priority ≤ y.priority)
      (sortRecs l) := by
  induction l with
  | nil => exact List.Pairwise.nil
  | cons r rs ih => exact insertRec_pairwise ih

/-- Stability of the insertion step: restricted to any one priority, the
insert behaves like `cons`. -/
theorem filter_insertRec (p : Nat) (r : Recommendation)
    (l : List Recommendation) :
    (insertRec r l).filter (fun x => x.priority == p) =
      ((r :: l).filter (fun x => x.priority == p)) := by
  induction l with
  | nil => rfl
  | cons a as ih =>
      rw [insertRec]
      by_cases hp : a.priority < r.priority
      · rw [if_pos hp]
        cases ha : (a.priority == p) <;> cases hr : (r.priority == p)
        · simp [List.filter_cons, ha, hr] at ih ⊢
          exact ih
        · simp [List.filter_cons, ha, hr] at ih ⊢
          exact ih
        · simp [List.filter_cons, ha, hr] at ih ⊢
          exact ih
        · rw [beq_iff_eq] at ha hr
          omega
      · rw [if_neg hp]

/-- Stability of the recommendation sort: restricted to any one priority,
sorting preserves the original (insertion) order. -/
theorem filter_sortRecs (p : Nat) (l : List Recommendation) :
    (sortRecs l).filter (fun x => x.priority == p) =
      l.filter (fun x => x.priority == p) := by
  induction l with
  | nil => rfl
  | cons r rs ih =>
      rw [sortRecs, filter_insertRec]
      simp only [List.filter_cons, ih]

/-- C6: the recommendation list is sorted non-decreasing by priority, and
restricted to any one priority value it coincides with the push
(insertion) order `pushedRecommendations` — the sort is stable. -/
theorem generateActionableRecommendations_sorted_stable (d : Diagnosis)
    (m : Readings) (a : Assessment) (lvl : Emergency) :
    List.Pairwise (fun x y : Recommendation => x.priority ≤ y.priority)
      (generateActionableRecommendations d m a lvl) ∧
    ∀ p : Nat,
      (generateActionableRecommendations d m a lvl).filter
          (fun x => x.priority == p) =
        (pushedRecommendations m a lvl).filter (fun x => x.priority == p) := by
  unfold generateActionableRecommendations pushedRecommendations
  by_cases hs : (a.status == "malfunctioning") = true
  · rw [if_pos hs, if_pos hs]
    constructor
    · by_cases hl : (lvl.level == "high") = true <;>
        simp [hl, isolatePlantRec, checkSensorRec]
    · intro p
      rfl
  · rw [if_neg hs, if_neg hs]
    exact ⟨sortRecs_pairwise _, fun p => filter_sortRecs p _⟩

/-- Every row of the standards table has `max < 100` (the largest is
nitrogen's 80). -/
theorem sensorStandards_max_lt (k : String) (std : Standard)
    (h : sensorStandards k = some std) : std.max < 100 := by
  unfold sensorStandards at h
  split at h <;>
    first
      | exact Option.noConfusion h
      | (injection h with h2; subst h2; decide)

/-- Looking up the head key returns the head value. -/
theorem jsLookup_head (k : String) (v : ℚ) (rest : Readings) :
    jsLookup ((k, v) :: rest) k = some v := by
  simp [jsLookup]

/-- The claim's all-100 hypothesis: every supplied value equals exactly
`100`. -/
def all100B (m : Readings) : Bool :=
  (m.map (·.snd)).all (fun v => v == 100)

/-- In a non-empty readings map, the `allMax` predicate evaluated at any
value first finds the head key (the head value looks itself up), so the
whole test is `false` whenever the head entry's own test is `false`. -/
theorem allMaxB_cons_eq_false (k : String) (v : ℚ) (rest : Readings)
    (h : (match sensorStandards k with
          | some _ => v == 100
          | none => false) = false) :
    allMaxB ((k, v) :: rest) = false := by
  unfold allMaxB
  rw [List.map_cons, List.all_cons]
  have hfind : (((k, v) :: rest).map (·.fst)).find?
      (fun k2 => jsLookup ((k, v) :: rest) k2 == some v) = some k := by
    rw [List.map_cons]
    apply List.find?_cons_of_pos
    rw [jsLookup_head]
    exact beq_self_eq_true (some v)
  simp only [hfind, h, Bool.false_and]

/-- When the map is non-empty, every key has a standards entry, and every
value is `100`, the `allMax` test passes. -/
theorem allMaxB_of_all100 (m : Readings) (hne : m ≠ [])
    (hknown : m.all (fun q => (sensorStandards q.fst).isSome) = true)
    (h100 : all100B m = true) : allMaxB m = true := by
  obtain ⟨⟨k, v⟩, rest, rfl⟩ : ∃ a rest, m = a :: rest := by
    cases m with
    | nil => exact absurd rfl hne
    | cons a rest => exact ⟨a, rest, rfl⟩
  have hv : v = 100 := by
    have := List.all_eq_true.mp h100 v (by simp)
    exact beq_iff_eq.mp this
  unfold allMaxB
  rw [List.all_eq_true]
  intro v2 hv2
  have hv2eq : v2 = 100 := by
    have := List.all_eq_true.mp h100 v2 hv2
    exact beq_iff_eq.mp this
  subst hv2eq
  have hfind : (((k, v) :: rest).map (·.fst)).find?
      (fun k2 => jsLookup ((k, v) :: rest) k2 == some 100) = some k := by
    rw [List.map_cons]
    apply List.find?_cons_of_pos
    rw [jsLookup_head, hv]
    exact beq_self_eq_true (some (100 : ℚ))
  obtain ⟨std, hstd⟩ := Option.isSome_iff_exists.mp
    (List.all_eq_true.mp hknown (k, v) (by simp))
  simp only [hfind, hstd]
  exact beq_self_eq_true (100 : ℚ)

/-- C1 counterexample: in the readings map `{humidity: 100}` every supplied
value equals exactly `100`, yet the status is `credible`, not `suspicious`:
the `allMax` test consults the standards entry of the first key bound to an
equal value, and `humidity` has no entry. -/
theorem all100_suspicious_cex :
    all100B [("humidity", (100 : ℚ))] = true ∧
    (assessSensorCredibility [("humidity", (100 : ℚ))]).status = "credible" ∧
    (assessSensorCredibility [("humidity", (100 : ℚ))]).status ≠ "suspicious" := by
  decide

/-- C1 amended: for every non-empty readings map whose keys all have
standards-table entries and whose values all equal exactly `100`, the
assessment status is `suspicious`. -/
theorem assessSensorCredibility_all100_known (m : Readings) (hne : m ≠ [])
    (hknown : m.all (fun q => (sensorStandards q.fst).isSome) = true)
    (h100 : all100B m = true) :
    (assessSensorCredibility m).status = "suspicious" := by
  have hmax := allMaxB_of_all100 m hne hknown h100
  have hzero : allZeroB m = false := by
    obtain ⟨⟨k, v⟩, rest, rfl⟩ : ∃ a rest, m = a :: rest := by
      cases m with
      | nil => exact absurd rfl hne
      | cons a rest => exact ⟨a, rest, rfl⟩
    have hv : v = 100 := by
      have := List.all_eq_true.mp h100 v (by simp)
      exact beq_iff_eq.mp this
    unfold allZeroB
    rw [List.map_cons, List.all_cons, hv]
    have h0 : ((100 : ℚ) == 0) = false := by decide
    rw [h0, Bool.false_and]
  unfold assessSensorCredibility
  rw [hzero, hmax]
  rfl

/-- Witness for the amended C1 at the readings map `{ph: 100}`. -/
theorem assessSensorCredibility_all100_known_witness :
    ([("ph", (100 : ℚ))] ≠ ([] : Readings)) ∧
    [("ph", (100 : ℚ))].all (fun q => (sensorStandards q.fst).isSome) = true ∧
    all100B [("ph", (100 : ℚ))] = true ∧
    (assessSensorCredibility [("ph", (100 : ℚ))]).status = "suspicious" :=
  ⟨by decide, by decide, by decide,
    assessSensorCredibility_all100_known _ (by decide) (by decide) (by decide)⟩

/-- The claim's in-range hypothesis for one entry: the value does not fall
outside its own standard's `[min, max]` (vacuous for unknown sensors). -/
def withinStandard (entry : String × ℚ) : Bool :=
  match sensorStandards entry.fst with
  | some std => decide (std.min ≤ entry.snd) && decide (entry.snd ≤ std.max)
  | none => true

/-- When every entry is within its standard, no issue is recorded. -/
theorem validityIssues_nil_of_within (m : Readings)
    (h : m.all withinStandard = true) : validityIssues m = [] := by
  induction m with
  | nil => rfl
  | cons a rest ih =>
      obtain ⟨k, v⟩ := a
      rw [List.all_cons, Bool.and_eq_true] at h
      obtain ⟨h1, h2⟩ := h
      unfold withinStandard at h1
      cases hstd : sensorStandards k with
      | none =>
          simp only [validityIssues, hstd]
          exact ih h2
      | some std =>
          rw [hstd, Bool.and_eq_true] at h1
          obtain ⟨hmin, hmax⟩ := h1
          have hminle : std.min ≤ v := of_decide_eq_true hmin
          have hmaxle : v ≤ std.max := of_decide_eq_true hmax
          have hcond : ¬(v < std.min ∨ std.max < v) := by
            push_neg
            exact ⟨hminle, hmaxle⟩
          simp only [validityIssues, hstd, if_neg hcond]
          exact ih h2

/-- C3 counterexample: in the readings map `{humidity: 0}` no supplied
value falls outside its own standard's range (the unknown sensor is
skipped), and the issues list is indeed empty, yet the status is
`malfunctioning` — the all-zero check fires first — not `credible`. -/
theorem inRange_credible_cex :
    [("humidity", (0 : ℚ))].all withinStandard = true ∧
    (checkSensorValidity [("humidity", (0 : ℚ))]).issues = [] ∧
    (assessSensorCredibility [("humidity", (0 : ℚ))]).status = "malfunctioning" ∧
    (assessSensorCredibility [("humidity", (0 : ℚ))]).status ≠ "credible" := by
  decide

/-- C3 amended: for every readings map in which no supplied value falls
outside its own standard's `[min, max]` interval and in which not every
value equals exactly `0`, the issues list is empty and the status is
`credible`. -/
theorem checkSensorValidity_inRange_credible (m : Readings)
    (hin : m.all withinStandard = true)
    (hnz : allZeroB m = false) :
    (checkSensorValidity m).issues = [] ∧
    (assessSensorCredibility m).status = "credible" := by
  have hiss := validityIssues_nil_of_within m hin
  have hmax : allMaxB m = false := by
    obtain ⟨⟨k, v⟩, rest, rfl⟩ : ∃ a rest, m = a :: rest := by
      cases m with
      | nil => exact absurd hnz (by decide)
      | cons a rest => exact ⟨a, rest, rfl⟩
    apply allMaxB_cons_eq_false
    rw [List.all_cons, Bool.and_eq_true] at hin
    obtain ⟨h1, _⟩ := hin
    unfold withinStandard at h1
    cases hstd : sensorStandards k with
    | none => rfl
    | some std =>
        rw [hstd, Bool.and_eq_true] at h1
        obtain ⟨_, hle⟩ := h1
        have hvle : v ≤ std.max := of_decide_eq_true hle
        have hv100 : v ≠ 100 := by
          intro hv

          rw [hv] at hvle
          exact absurd (lt_of_lt_of_le (sensorStandards_max_lt k std hstd) hvle)
            (lt_irrefl _)
        exact beq_eq_false_iff_ne.mpr hv100
  constructor
  · simp [checkSensorValidity, hiss]
  · unfold assessSensorCredibility
    rw [hnz, hmax]
    simp [checkSensorValidity, hiss]

/-- Witness for the amended C3 at the readings map `{nitrogen: 60}`. -/
theorem checkSensorValidity_inRange_credible_witness :
    [("nitrogen", (60 : ℚ))].all withinStandard = true ∧
    allZeroB [("nitrogen", (60 : ℚ))] = false ∧
    (checkSensorValidity [("nitrogen", (60 : ℚ))]).issues = [] ∧
    (assessSensorCredibility [("nitrogen", (60 : ℚ))]).status = "credible" := by
  refine ⟨by decide, by decide, ?_, ?_⟩
  · exact (checkSensorValidity_inRange_credible _ (by decide) (by decide)).1
  · exact (checkSensorValidity_inRange_credible _ (by decide) (by decide)).2

/-- C4: with a `healthy` vision prediction and at least one out-of-range
sensor issue, the diagnosis is `SENSOR MALFUNCTION` without immediate
action when the assessment status is `malfunctioning`, and otherwise
`EARLY WARNING` with immediate action required. -/
theorem generateIntelligentDiagnosis_healthy_issues (conf : ℚ) (m : Readings)
    (a : Assessment) (npk : Option NPK)
    (h : (checkSensorValidity m).hasIssues = true) :
    (a.status = "malfunctioning" →
      (generateIntelligentDiagnosis "healthy" conf m a npk).verdict =
        "SENSOR MALFUNCTION" ∧
      (generateIntelligentDiagnosis "healthy" conf m a npk).requiresImmediateAction =
        false) ∧
    (a.status ≠ "malfunctioning" →
      (generateIntelligentDiagnosis "healthy" conf m a npk).verdict =
        "EARLY WARNING" ∧
      (generateIntelligentDiagnosis "healthy" conf m a npk).requiresImmediateAction =
        true) := by
  constructor <;> intro hs <;>
    simp [generateIntelligentDiagnosis, diagnosisCaseTwoOnward, h, hs]

/-- Witness for C4 at readings `{moisture: 10}` (out of range, assessment
not malfunctioning): the `EARLY WARNING` disagreement branch. -/
theorem generateIntelligentDiagnosis_healthy_issues_witness :
    (checkSensorValidity [("moisture", (10 : ℚ))]).hasIssues = true ∧
    (assessSensorCredibility [("moisture", (10 : ℚ))]).status ≠ "malfunctioning" ∧
    (generateIntelligentDiagnosis "healthy" (3/4) [("moisture", (10 : ℚ))]
        (assessSensorCredibility [("moisture", (10 : ℚ))]) none).verdict =
      "EARLY WARNING" ∧
    (generateIntelligentDiagnosis "healthy" (3/4) [("moisture", (10 : ℚ))]
        (assessSensorCredibility [("moisture", (10 : ℚ))]) none).requiresImmediateAction =
      true := by
  have h := generateIntelligentDiagnosis_healthy_issues (3/4)
    [("moisture", (10 : ℚ))] (assessSensorCredibility [("moisture", (10 : ℚ))])
    none (by decide)
  have hs : (assessSensorCredibility [("moisture", (10 : ℚ))]).status ≠
      "malfunctioning" := by decide
  exact ⟨by decide, hs, (h.2 hs).1, (h.2 hs).2⟩

/-- Exhaustive case analysis of the diagnosis engine: the pair
(verdict, requiresImmediateAction) is always one of the seven fixed
outcomes. -/
theorem diagnosis_pair_mem (pred : String) (conf : ℚ) (m : Readings)
    (a : Assessment) (npk : Option NPK) :
    ((generateIntelligentDiagnosis pred conf m a npk).verdict,
     (generateIntelligentDiagnosis pred conf m a npk).requiresImmediateAction) ∈
      [("PLANT IS HEALTHY", false), ("NUTRIENT DEFICIENCY CONFIRMED", true),
       ("DISEASE DETECTED", true), ("SENSOR MALFUNCTION", false),
       ("EARLY WARNING", true), ("VISUAL ISSUE DETECTED", true),
       ("INCONCLUSIVE", false)] := by
  unfold generateIntelligentDiagnosis diagnosisCaseTwoOnward
  by_cases h1 : pred = "healthy"
  · subst h1
    cases hI : (checkSensorValidity m).hasIssues <;>
      by_cases h4 : (a.status == "malfunctioning") = true <;> simp [hI, h4]
  · by_cases h2 : pred = "nutrient_deficient"
    · subst h2
      cases hI : (checkSensorValidity m).hasIssues <;> simp [hI]
    · by_cases h3 : pred = "diseased"
      · subst h3
        cases hI : (checkSensorValidity m).hasIssues <;> simp [hI]
      · cases hI : (checkSensorValidity m).hasIssues <;>
          by_cases h4 : (a.status == "malfunctioning") = true <;>
            simp [h1, h2, h3, h4, hI]

/-- The verdict always belongs to the fixed seven-verdict set. -/
theorem diagnosis_verdict_mem (pred : String) (conf : ℚ) (m : Readings)
    (a : Assessment) (npk : Option NPK) :
    (generateIntelligentDiagnosis pred conf m a npk).verdict ∈
      ["PLANT IS HEALTHY", "NUTRIENT DEFICIENCY CONFIRMED", "DISEASE DETECTED",
       "SENSOR MALFUNCTION", "EARLY WARNING", "VISUAL ISSUE DETECTED",
       "INCONCLUSIVE"] := by
  have h := List.mem_map_of_mem Prod.fst (diagnosis_pair_mem pred conf m a npk)
  simpa using h

/-- C9: when the prediction is one of the three known classes, the engine
never returns the `INCONCLUSIVE` fallback. -/
theorem generateIntelligentDiagnosis_not_inconclusive (pred : String)
    (conf : ℚ) (m : Readings) (a : Assessment) (npk : Option NPK)
    (h : pred = "healthy" ∨ pred = "nutrient_deficient" ∨ pred = "diseased") :
    (generateIntelligentDiagnosis pred conf m a npk).verdict ≠ "INCONCLUSIVE" := by
  rcases h with rfl | rfl | rfl <;>
    unfold generateIntelligentDiagnosis diagnosisCaseTwoOnward <;>
      cases hI : (checkSensorValidity m).hasIssues <;>
        by_cases h4 : (a.status == "malfunctioning") = true <;>
          simp [hI, h4]

/-- Witness for C9 at prediction `healthy`, readings `{moisture: 10}`. -/
theorem generateIntelligentDiagnosis_not_inconclusive_witness :
    ("healthy" = "healthy" ∨ "healthy" = "nutrient_deficient" ∨
      "healthy" = "diseased") ∧
    (generateIntelligentDiagnosis "healthy" (9/10) [("moisture", (10 : ℚ))]
        (assessSensorCredibility [("moisture", (10 : ℚ))]) none).verdict ≠
      "INCONCLUSIVE" :=
  ⟨Or.inl rfl,
    generateIntelligentDiagnosis_not_inconclusive "healthy" (9/10)
      [("moisture", (10 : ℚ))] (assessSensorCredibility [("moisture", (10 : ℚ))])
      none (Or.inl rfl)⟩

/-- C10: whenever the engine produces the `EARLY WARNING` verdict, it sets
`requiresImmediateAction`, so the emergency level is `high` — never
`medium` via the WARNING-text clause. -/
theorem earlyWarning_requires_action_high (pred : String) (conf : ℚ)
    (m : Readings) (a : Assessment) (npk : Option NPK)
    (h : (generateIntelligentDiagnosis pred conf m a npk).verdict =
      "EARLY WARNING") :
    (generateIntelligentDiagnosis pred conf m a npk).requiresImmediateAction =
      true ∧
    (determineEmergencyLevel (generateIntelligentDiagnosis pred conf m a npk)
        a).level = "high" := by
  have hria : (generateIntelligentDiagnosis pred conf m a npk).requiresImmediateAction =
      true := by
    have hmem := diagnosis_pair_mem pred conf m a npk
    rw [h] at hmem
    simpa using hmem
  refine ⟨hria, ?_⟩
  unfold determineEmergencyLevel
  rw [hria]
  simp [highEmergency]

/-- Witness for C10 at prediction `healthy`, readings `{moisture: 10}`. -/
theorem earlyWarning_requires_action_high_witness :
    (generateIntelligentDiagnosis "healthy" (1/2) [("moisture", (10 : ℚ))]
        (assessSensorCredibility [("moisture", (10 : ℚ))]) none).verdict =
      "EARLY WARNING" ∧
    (generateIntelligentDiagnosis "healthy" (1/2) [("moisture", (10 : ℚ))]
        (assessSensorCredibility [("moisture", (10 : ℚ))])
        none).requiresImmediateAction = true ∧
    (determineEmergencyLevel
        (generateIntelligentDiagnosis "healthy" (1/2) [("moisture", (10 : ℚ))]
          (assessSensorCredibility [("moisture", (10 : ℚ))]) none)
        (assessSensorCredibility [("moisture", (10 : ℚ))])).level = "high" := by
  have h : (generateIntelligentDiagnosis "healthy" (1/2) [("moisture", (10 : ℚ))]
      (assessSensorCredibility [("moisture", (10 : ℚ))]) none).verdict =
      "EARLY WARNING" := by decide
  exact ⟨h, (earlyWarning_requires_action_high "healthy" (1/2)
      [("moisture", (10 : ℚ))] (assessSensorCredibility [("moisture", (10 : ℚ))])
      none h).1,
    (earlyWarning_requires_action_high "healthy" (1/2) [("moisture", (10 : ℚ))]
      (assessSensorCredibility [("moisture", (10 : ℚ))]) none h).2⟩

/-- Every recorded issue names a sensor that was supplied and that has a
standards entry: unknown sensors are silently skipped. -/
theorem validityIssues_known_and_present (m : Readings) :
    ∀ i ∈ validityIssues m,
      (sensorStandards i.sensor).isSome = true ∧ i.sensor ∈ m.map (·.fst) := by
  induction m with
  | nil => intro i hi; exact absurd hi (List.not_mem_nil i)
  | cons a rest ih =>
      obtain ⟨k, v⟩ := a
      intro i hi
      cases hstd : sensorStandards k with
      | none =>
          rw [validityIssues] at hi
          rw [hstd] at hi
          dsimp only at hi
          obtain ⟨hl, hr⟩ := ih i hi
          exact ⟨hl, List.mem_cons_of_mem k hr⟩
      | some std =>
          rw [validityIssues] at hi
          rw [hstd] at hi
          dsimp only at hi
          by_cases hc : (v < std.min ∨ std.max < v)
          · rw [if_pos hc] at hi
            rcases List.mem_cons.mp hi with rfl | hi2
            · exact ⟨by simp [hstd], List.mem_cons_self k _⟩
            · obtain ⟨hl, hr⟩ := ih i hi2
              exact ⟨hl, List.mem_cons_of_mem k hr⟩
          · rw [if_neg hc] at hi
            obtain ⟨hl, hr⟩ := ih i hi
            exact ⟨hl, List.mem_cons_of_mem k hr⟩

/-- Boolean form of `validityIssues_known_and_present`. -/
theorem validityIssues_all_known (m : Readings) :
    (validityIssues m).all (fun i =>
      (sensorStandards i.sensor).isSome &&
        (m.map (·.fst)).contains i.sensor) = true := by
  rw [List.all_eq_true]
  intro i hi
  obtain ⟨h1, h2⟩ := validityIssues_known_and_present m i hi
  rw [Bool.and_eq_true]
  exact ⟨h1, List.elem_eq_true_of_mem h2⟩

/-- C8: `analyzeSituation` is a total function of any well-formed vision
result and any readings map: the NPK estimate is `none` exactly when `ec`
or `ph` is absent (and the exact estimate otherwise), the diagnosis verdict
is always one of the seven fixed outcomes (with `INCONCLUSIVE` as the
unmatched-rule fallback), and every reported issue comes from a supplied
sensor with a standards entry — missing and unknown sensors are skipped. -/
theorem analyzeSituation_robust (v : VisionResult) (m : Readings) :
    (analyzeSituation v m).sensorAssessment.calculatedNPK =
      (match jsLookup m "ec", jsLookup m "ph" with
       | some e, some p => some (calculateNPKFromECpH e p)
       | _, _ => none) ∧
    ((analyzeSituation v m).intelligentDiagnosis.verdict ∈
      ["PLANT IS HEALTHY", "NUTRIENT DEFICIENCY CONFIRMED", "DISEASE DETECTED",
       "SENSOR MALFUNCTION", "EARLY WARNING", "VISUAL ISSUE DETECTED",
       "INCONCLUSIVE"]) ∧
    (analyzeSituation v m).sensorAssessment.issues.all (fun i =>
      (sensorStandards i.sensor).isSome &&
        (m.map (·.fst)).contains i.sensor) = true := by
  refine ⟨rfl, ?_, ?_⟩
  · exact diagnosis_verdict_mem v.prediction v.confidence m
      (assessSensorCredibility m) _
  · exact validityIssues_all_known m

end DecisionEngine
